import Mathlib

/-!
Shallow embedding of the Caliper roctracer and umpire service sources
(`src/services/roctracer/RocTracer.cpp`, `src/services/umpire/UmpireStatistics.cpp`)
together with the parts of the Caliper core they rely on, and proofs of the
specified properties of the correlation store, the buffered flush pipeline
and the snapshot construction.
-/

namespace Caliper

/-- A Caliper `Variant` value, restricted to the payload kinds the two
services actually produce: empty, string, and 64-bit unsigned integer
(modelled as `Nat`, with explicit wraparound where the C code computes
in `uint64_t`). -/
inductive Value where
  | empty : Value
  | str : String → Value
  | uint : Nat → Value
deriving DecidableEq

/-- `2 ^ 64`, the modulus of `uint64_t` arithmetic. -/
def U64Mod : Nat := 2 ^ 64

/-- `uint64_t` subtraction `a - b` for operands below `2 ^ 64`. -/
def u64sub (a b : Nat) : Nat := (a + U64Mod - b) % U64Mod

/-- A `cali::Node` of the context tree: an (attribute, value) pair with an
optional parent (`root` has a null parent).  Nodes are immutable; a branch is
identified with the node at its leaf. -/
inductive CNode where
  | root : String → Value → CNode
  | child : String → Value → CNode → CNode
deriving DecidableEq

/-- The attribute name of a context-tree node. -/
def CNode.nodeAttr : CNode → String
  | .root a _ => a
  | .child a _ _ => a

/-- The value of a context-tree node. -/
def CNode.nodeValue : CNode → Value
  | .root _ v => v
  | .child _ v _ => v

/-- The parent of a context-tree node (`none` for a root). -/
def CNode.nodeParent : CNode → Option CNode
  | .root _ _ => none
  | .child _ _ p => some p

/-- Modelled from the spec: `Caliper::make_tree_entry` (Caliper core, not under
`src/`) creates a fresh context-tree node with the given attribute, value and
parent. -/
def make_tree_entry (attr : String) (v : Value) (parent : Option CNode) : CNode :=
  match parent with
  | none => CNode.root attr v
  | some p => CNode.child attr v p

/-- Modelled from the spec: `Caliper::begin` (Caliper core, not under `src/`)
pushes a new child node for `attr` under the thread's current context node and
makes it current (spec section 4.2). -/
def caliper_begin (ctx : Option CNode) (attr : String) (v : Value) : Option CNode :=
  some (make_tree_entry attr v ctx)

/-- Modelled from the spec: `Caliper::end` (Caliper core, not under `src/`)
pops the current node for `attr`, restoring its parent as current; a mismatch
(ending an attribute that is not at the top of the thread's nesting) is a
surfaced usage error, modelled as `none` (spec section 4.2). -/
def caliper_end (ctx : Option CNode) (attr : String) : Option (Option CNode) :=
  match ctx with
  | none => none
  | some n => if n.nodeAttr = attr then some n.nodeParent else none

/-- Walk from a node towards the root and return the innermost node carrying
the given attribute. -/
def cnodeGet : CNode → String → Option CNode
  | CNode.root a v, attr => if a = attr then some (CNode.root a v) else none
  | CNode.child a v p, attr => if a = attr then some (CNode.child a v p) else cnodeGet p attr

/-- Modelled from the spec: `Caliper::get` (Caliper core, not under `src/`)
returns the innermost entry for `attr` on the thread's current context path,
or a null entry when there is none; `Entry::is_reference` corresponds to
`isSome` and `Entry::node` to the contained node. -/
def caliper_get (ctx : Option CNode) (attr : String) : Option CNode :=
  match ctx with
  | none => none
  | some n => cnodeGet n attr

/-! ### The correlation map

`RocTracerService::m_correlation_map` is a `std::map<uint64_t, cali::Node*>`,
embedded as an association list with the `std::map` key-uniqueness invariant
(`KeysNodup`).  `mapInsert` is `m_correlation_map[id] = node` (insert or
overwrite), `mapFind` is `find`, `mapErase` is `erase` of the found entry. -/

/-- Lookup in the correlation map (`std::map::find`). -/
def mapFind {α : Type} : List (Nat × α) → Nat → Option α
  | [], _ => none
  | (k, v) :: rest, id => if id = k then some v else mapFind rest id

/-- Insert-or-overwrite (`std::map::operator[]` followed by assignment). -/
def mapInsert {α : Type} : List (Nat × α) → Nat → α → List (Nat × α)
  | [], id, n => [(id, n)]
  | (k, v) :: rest, id, n => if id = k then (id, n) :: rest else (k, v) :: mapInsert rest id n

/-- Erase the entry found for a key (`std::map::erase` of the iterator
returned by `find`). -/
def mapErase {α : Type} : List (Nat × α) → Nat → List (Nat × α)
  | [], _ => []
  | (k, v) :: rest, id => if id = k then rest else (k, v) :: mapErase rest id

/-- Number of entries stored under a key. -/
def countKey {α : Type} (m : List (Nat × α)) (id : Nat) : Nat :=
  (m.filter (fun p => p.1 == id)).length

/-- The `std::map` representation invariant: one entry per key. -/
def KeysNodup {α : Type} (m : List (Nat × α)) : Prop :=
  (m.map Prod.fst).Nodup

instance {α : Type} (m : List (Nat × α)) : Decidable (KeysNodup m) := by
  unfold KeysNodup
  infer_instance

/-- `RocTracerService::push_correlation` (RocTracer.cpp lines 117-122): store
a context node under an externally-assigned correlation id,
`m_correlation_map[id] = node` under the map mutex. -/
def push_correlation {α : Type} (m : List (Nat × α)) (id : Nat) (n : α) : List (Nat × α) :=
  mapInsert m id n

/-- `RocTracerService::pop_correlation` (RocTracer.cpp lines 124-138): find
the entry for `id`; when present, remove it and return the node, otherwise
return null.  Returns the result together with the updated map. -/
def pop_correlation {α : Type} (m : List (Nat × α)) (id : Nat) : Option α × List (Nat × α) :=
  match mapFind m id with
  | some n => (some n, mapErase m id)
  | none => (none, m)

/-! ### The roctracer service state

The counters and the correlation map of `RocTracerService` (RocTracer.cpp
lines 44-67), together with the two configuration flags read in the
constructor. -/

/-- The mutable members of `RocTracerService` relevant to correlation and
flushing. -/
structure ServiceState where
  correlation_map : List (Nat × CNode)
  num_records : Nat
  num_flushed : Nat
  num_flushes : Nat
  num_correlations_stored : Nat
  num_correlations_found : Nat
  num_correlations_missed : Nat
  enable_tracing : Bool
  record_names : Bool
deriving DecidableEq

/-- The state right after the `RocTracerService` constructor: empty map and
zero counters, with the two configuration flags as read from the channel
config. -/
def initState (trace names : Bool) : ServiceState :=
  { correlation_map := []
    num_records := 0
    num_flushed := 0
    num_flushes := 0
    num_correlations_stored := 0
    num_correlations_found := 0
    num_correlations_missed := 0
    enable_tracing := trace
    record_names := names }

/-! ### Vendor-header constants

Enum values from the roctracer / HIP headers (external vendor code), modelled
as fixed naturals; in the vendor header the HIP and HCC async-op activity
domains share one id, and the remaining ids are pairwise distinct. -/

/-- roctracer activity domain id for HIP async operations. -/
def ACTIVITY_DOMAIN_HIP_OPS : Nat := 2

/-- roctracer activity domain id for HCC async operations (an alias of the
HIP one in the vendor header). -/
def ACTIVITY_DOMAIN_HCC_OPS : Nat := 2

/-- roctracer activity domain id for HIP API callbacks. -/
def ACTIVITY_DOMAIN_HIP_API : Nat := 3

/-- HIP async-operation kind id for memory copies. -/
def HIP_OP_ID_COPY : Nat := 1

/-- HIP API callback id skipped by the service. -/
def HIP_API_ID___hipPushCallConfiguration : Nat := 20

/-- HIP API callback id skipped by the service. -/
def HIP_API_ID___hipPopCallConfiguration : Nat := 21

/-- HIP API callback id of a kernel launch. -/
def HIP_API_ID_hipLaunchKernel : Nat := 22

/-- HIP API callback id of a kernel launch. -/
def HIP_API_ID_hipExtLaunchKernel : Nat := 23

/-- HIP API callback id of a kernel launch. -/
def HIP_API_ID_hipModuleLaunchKernel : Nat := 24

/-- HIP API callback id of a kernel launch. -/
def HIP_API_ID_hipExtModuleLaunchKernel : Nat := 25

/-- HIP API callback id of a kernel launch. -/
def HIP_API_ID_hipHccModuleLaunchKernel : Nat := 26

/-- Modelled from the vendor library: `roctracer_op_string` returns a
printable name for an operation given (domain, op, kind). -/
def roctracer_op_string (domain op kind : Nat) : String :=
  "op." ++ toString domain ++ "." ++ toString op ++ "." ++ toString kind

/-- Modelled from the spec: `util::demangle` (`src/common/util/demangle`, not
under `src/` here) maps a mangled kernel symbol to a readable name; its exact
renaming is irrelevant to the claims, so it is modelled as the identity. -/
def demangle (s : String) : String := s

/-- The attribute name behind `m_api_attr` ("rocm.api", RocTracer.cpp
line 77). -/
def rocm_api_attr : String := "rocm.api"

/-- The attribute name behind `m_kernel_name_attr` ("rocm.kernel.name",
RocTracer.cpp line 107). -/
def rocm_kernel_name_attr : String := "rocm.kernel.name"

/-- The attribute name behind `m_flush_region_attr` ("roctracer.flush",
RocTracer.cpp line 110). -/
def roctracer_flush_attr : String := "roctracer.flush"

/-- The phase indicator of a HIP API callback. -/
inductive Phase where
  | enter : Phase
  | exit : Phase
deriving DecidableEq

/-- The relevant content of the `hip_api_data_t` passed to
`hip_api_callback`: the phase, the correlation id assigned by roctracer, and
the kernel name the vendor accessors (`hipKernelNameRefByPtr` /
`hipKernelNameRef`) would return for this call's arguments. -/
structure ApiCallbackData where
  phase : Phase
  correlation_id : Nat
  kernelNameArg : String
deriving DecidableEq

/-- Whether a HIP API callback id is one of the kernel-launch ids of the
`switch` in `hip_api_callback` (RocTracer.cpp lines 160-177). -/
def isLaunchApi (cid : Nat) : Bool :=
  cid == HIP_API_ID_hipLaunchKernel || cid == HIP_API_ID_hipExtLaunchKernel ||
  cid == HIP_API_ID_hipModuleLaunchKernel || cid == HIP_API_ID_hipExtModuleLaunchKernel ||
  cid == HIP_API_ID_hipHccModuleLaunchKernel

/-- `RocTracerService::hip_api_callback` (RocTracer.cpp lines 140-200): on
ENTER, begin the `rocm.api` region with the operation name and, when tracing,
store the current context node (possibly extended by a kernel-name node)
under the record's correlation id, counting it as stored; on EXIT, end the
`rocm.api` region.  `opName` is what `roctracer_op_string` returns for this
callback.  Returns the updated service state and thread context. -/
def hip_api_callback (s : ServiceState) (ctx : Option CNode) (cid : Nat)
    (data : ApiCallbackData) (opName : String) : ServiceState × Option CNode :=
  if cid = HIP_API_ID___hipPushCallConfiguration ∨ cid = HIP_API_ID___hipPopCallConfiguration then
    (s, ctx)
  else if data.phase = Phase.enter then
    let ctx1 := caliper_begin ctx rocm_api_attr (Value.str opName)
    if s.enable_tracing then
      let kernel : String :=
        if s.record_names then (if isLaunchApi cid then data.kernelNameArg else "") else ""
      let e : Option CNode := caliper_get ctx1 rocm_api_attr
      let node : Option CNode :=
        if kernel ≠ "" then some (make_tree_entry rocm_kernel_name_attr (Value.str (demangle kernel)) e)
        else e
      match node with
      | some n =>
        ({ s with
            correlation_map := push_correlation s.correlation_map data.correlation_id n
            num_correlations_stored := s.num_correlations_stored + 1 }, ctx1)
      | none => (s, ctx1)
    else (s, ctx1)
  else
    match caliper_end ctx rocm_api_attr with
    | some parent => (s, parent)
    | none => (s, ctx)

/-! ### The buffered flush pipeline -/

/-- The fields of a `roctracer_record_t` read by `flush_record`; all numeric
fields are `uint64_t`/`uint32_t` values, assumed in range. -/
structure RocRecord where
  domain : Nat
  op : Nat
  kind : Nat
  correlation_id : Nat
  begin_ns : Nat
  end_ns : Nat
  device_id : Nat
  queue_id : Nat
  bytes : Nat
deriving DecidableEq

/-- Whether a record's domain is one the service recognizes
(`record->domain == ACTIVITY_DOMAIN_HIP_OPS || record->domain ==
ACTIVITY_DOMAIN_HCC_OPS`, RocTracer.cpp line 205). -/
def isRecognizedDomain (d : Nat) : Bool :=
  d == ACTIVITY_DOMAIN_HIP_OPS || d == ACTIVITY_DOMAIN_HCC_OPS

/-- A snapshot record: an ordered field sequence plus an optional inherited
context branch (spec section 3, `SnapshotRecord`). -/
structure SnapshotRec where
  fields : List (String × Value)
  inherited : Option CNode
deriving DecidableEq

/-- Modelled from the spec: `Caliper::make_record` with a
`FixedSizeSnapshotRecord` builder (Caliper core, not under `src/`) builds a
snapshot record from the first `num` (attribute, value) pairs plus the
inherited context branch (spec sections 4.4 and 4.6). -/
def make_record (num : Nat) (attrs : List String) (data : List Value)
    (parent : Option CNode) : SnapshotRec :=
  { fields := (attrs.zip data).take num, inherited := parent }

/-- The attribute array built in `flush_record` (RocTracer.cpp lines
206-214), by attribute name. -/
def activityAttrs : List String :=
  ["rocm.activity", "rocm.starttime", "rocm.endtime", "rocm.activity.duration",
   "rocm.activity.device", "rocm.activity.queue", "rocm.activity.bytes"]

/-- The data array built in `flush_record` (RocTracer.cpp lines 215-228):
operation name, begin and end timestamps, duration `end_ns - begin_ns`
(`uint64_t` subtraction), device and queue ids, and — only for copy
operations — the byte count written into slot 6. -/
def activityData (r : RocRecord) : List Value :=
  [Value.str (roctracer_op_string r.domain r.op r.kind),
   Value.uint r.begin_ns,
   Value.uint r.end_ns,
   Value.uint (u64sub r.end_ns r.begin_ns),
   Value.uint r.device_id,
   Value.uint r.queue_id,
   if r.op = HIP_OP_ID_COPY then Value.uint r.bytes else Value.empty]

/-- The result of one `flush_record` call: the updated service state, the
snapshots dispatched through `process_snapshot`, and the function's return
value (its contribution to `num_flushed`). -/
structure FlushRecordResult where
  state : ServiceState
  snaps : List SnapshotRec
  ret : Nat
deriving DecidableEq

/-- `RocTracerService::flush_record` (RocTracer.cpp lines 202-246): for a
record of a recognized domain, build the field arrays (6 fields, or 7 for a
copy operation), take the correlation entry for the record's id (counting it
found or missed), build one snapshot record with the popped node as inherited
branch and dispatch it; an unrecognized record produces nothing and returns
zero. -/
def flush_record (s : ServiceState) (r : RocRecord) : FlushRecordResult :=
  if isRecognizedDomain r.domain then
    let num : Nat := if r.op = HIP_OP_ID_COPY then 7 else 6
    let pr := pop_correlation s.correlation_map r.correlation_id
    let s1 := { s with correlation_map := pr.2 }
    let s2 :=
      match pr.1 with
      | some _ => { s1 with num_correlations_found := s1.num_correlations_found + 1 }
      | none => { s1 with num_correlations_missed := s1.num_correlations_missed + 1 }
    { state := s2
      snaps := [make_record num activityAttrs (activityData r) pr.1]
      ret := 1 }
  else
    { state := s, snaps := [], ret := 0 }

/-- One cell of a delivered activity buffer: the record at the current
position, and whether the vendor's advance accessor `roctracer_next_record`
succeeds (returns 0) at this position. -/
structure FlushCell where
  record : RocRecord
  advance_ok : Bool
deriving DecidableEq

/-- The result of the record loop in `flush_activity_records`: final service
state, the local `num_flushed` and `num_records` counters, and the snapshots
dispatched in order. -/
structure FlushLoopResult where
  state : ServiceState
  num_flushed : Nat
  num_records : Nat
  snaps : List SnapshotRec
deriving DecidableEq

/-- The `while (record < end_record)` loop of `flush_activity_records`
(RocTracer.cpp lines 259-265): flush the current record, count it as seen,
and continue with the next record; when `roctracer_next_record` fails, break
out of the loop. -/
def flush_loop : ServiceState → List FlushCell → FlushLoopResult
  | s, [] => { state := s, num_flushed := 0, num_records := 0, snaps := [] }
  | s, cell :: rest =>
    let fr := flush_record s cell.record
    if cell.advance_ok then
      let r := flush_loop fr.state rest
      { state := r.state
        num_flushed := fr.ret + r.num_flushed
        num_records := 1 + r.num_records
        snaps := fr.snaps ++ r.snaps }
    else
      { state := fr.state, num_flushed := fr.ret, num_records := 1, snaps := fr.snaps }

/-- The result of `flush_activity_records`: final service state, final thread
context, and the snapshots dispatched in order. -/
structure FlushResult where
  state : ServiceState
  ctx : Option CNode
  snaps : List SnapshotRec
deriving DecidableEq

/-- `RocTracerService::flush_activity_records` (RocTracer.cpp lines 248-279):
begin the flush marker region, run the record loop over the delivered buffer,
add the local counters to the member counters, increment the flush counter,
and end the flush marker region. -/
def flush_activity_records (s : ServiceState) (ctx : Option CNode)
    (cells : List FlushCell) : FlushResult :=
  let ctx1 := caliper_begin ctx roctracer_flush_attr (Value.str "ROCTRACER FLUSH")
  let r := flush_loop s cells
  let s1 :=
    { r.state with
        num_flushed := r.state.num_flushed + r.num_flushed
        num_records := r.state.num_records + r.num_records
        num_flushes := r.state.num_flushes + 1 }
  let ctx2 :=
    match caliper_end ctx1 roctracer_flush_attr with
    | some parent => parent
    | none => ctx1
  { state := s1, ctx := ctx2, snaps := r.snaps }

/-- `RocTracerService::register_roctracer` (RocTracer.cpp lines 454-483)
restricted to its effect on the global `s_instance`: when an instance is
already active a warning ("roctracer service is already active, disabling!")
is logged — returned here as the `Bool` — but the function then
unconditionally constructs a new service and assigns it to `s_instance`.
Instances are identified by a natural number. -/
def register_roctracer (s_instance : Option Nat) (newInstance : Nat) : Option Nat × Bool :=
  (some newInstance, s_instance.isSome)

/-! ### The umpire statistics service (`UmpireStatistics.cpp`) -/

/-- What the external umpire `Allocator` getters return for one allocator:
its name and the four `uint64_t` statistics read by `process_allocator`. -/
structure Alloc where
  name : String
  actualSize : Nat
  currentSize : Nat
  hwm : Nat
  count : Nat
deriving DecidableEq

/-- `UmpireService::process_allocator` (UmpireStatistics.cpp lines 44-70):
build one standalone snapshot record carrying the captured context followed
by the five per-allocator fields, parented at the service's dummy root node
(modelled as no inherited branch), and dispatch it through
`process_snapshot`. -/
def umpire_process_allocator (context : List (String × Value)) (a : Alloc) : SnapshotRec :=
  { fields := context ++
      [("umpire.alloc.name", Value.str a.name),
       ("umpire.alloc.actual.size", Value.uint a.actualSize),
       ("umpire.alloc.current.size", Value.uint a.currentSize),
       ("umpire.alloc.highwatermark", Value.uint a.hwm),
       ("umpire.alloc.count", Value.uint a.count)], inherited := none }

/-- The allocator loop of `UmpireService::snapshot` (UmpireStatistics.cpp
lines 91-99): accumulate `total_size` and `total_count` in `uint64_t`
arithmetic over all allocators and, when per-allocator statistics are on,
dispatch one standalone record per allocator.  Returns the two totals and the
dispatched records in order. -/
def umpire_loop (perAlloc : Bool) (context : List (String × Value)) :
    List Alloc → Nat → Nat → Nat × Nat × List SnapshotRec
  | [], ts, tc => (ts, tc, [])
  | a :: rest, ts, tc =>
    let ts1 := (ts + a.currentSize) % U64Mod
    let tc1 := (tc + a.count) % U64Mod
    let r := umpire_loop perAlloc context rest ts1 tc1
    (r.1, r.2.1, (if perAlloc then [umpire_process_allocator context a] else []) ++ r.2.2)

/-- `UmpireService::snapshot` (UmpireStatistics.cpp lines 72-103): run the
allocator loop, then append exactly the two total fields to the subscriber's
snapshot builder.  `context` is the context captured for the standalone
records when per-allocator statistics are on.  Returns the fields appended to
the builder and the standalone records dispatched. -/
def umpire_snapshot (perAlloc : Bool) (context : List (String × Value))
    (allocs : List Alloc) : List (String × Value) × List SnapshotRec :=
  let r := umpire_loop perAlloc context allocs 0 0
  ([("umpire.total.size", Value.uint r.1), ("umpire.total.count", Value.uint r.2.1)], r.2.2)

/-! ### Sample inputs used to instantiate the theorems -/

/-- A sample context node: the `rocm.api` region with value "matmul". -/
def nodeA : CNode := CNode.root rocm_api_attr (Value.str "matmul")

/-- A second, distinct sample context node. -/
def nodeB : CNode := CNode.root "x" (Value.uint 1)

/-- A sample correlation map holding one unrelated entry. -/
def mapW : List (Nat × CNode) := [(7, nodeB)]

/-- A sample recognized activity record with correlation id 42 and a 500 ns
begin/end difference. -/
def rec42 : RocRecord :=
  { domain := ACTIVITY_DOMAIN_HIP_OPS, op := 0, kind := 0, correlation_id := 42
    begin_ns := 1000, end_ns := 1500, device_id := 0, queue_id := 0, bytes := 0 }

/-- A sample recognized activity record with the never-stored correlation
id 99. -/
def rec99 : RocRecord :=
  { domain := ACTIVITY_DOMAIN_HIP_OPS, op := 0, kind := 0, correlation_id := 99
    begin_ns := 2000, end_ns := 2600, device_id := 0, queue_id := 0, bytes := 0 }

/-- A sample record of an unrecognized domain (the HIP API domain, which
`flush_record` does not handle). -/
def badRec : RocRecord :=
  { domain := ACTIVITY_DOMAIN_HIP_API, op := 0, kind := 0, correlation_id := 5
    begin_ns := 0, end_ns := 0, device_id := 0, queue_id := 0, bytes := 0 }

/-- The emission sequence of processing a record list left to right with
`flush_record`, threading the service state: the reference order against
which the flush loop's dispatch order is checked. -/
def flushEmissions : ServiceState → List RocRecord → List SnapshotRec
  | _, [] => []
  | s, r :: rest => (flush_record s r).snaps ++ flushEmissions (flush_record s r).state rest

/-- The number of cells of a buffer whose record has a recognized domain. -/
def countRecognized (cells : List FlushCell) : Nat :=
  (cells.filter (fun c => isRecognizedDomain c.record.domain)).length

/-- A sample two-record buffer whose advance accessor always succeeds: one
recognized record followed by one unrecognized record. -/
def cellsW : List FlushCell :=
  [{ record := rec42, advance_ok := true }, { record := badRec, advance_ok := true }]

/-- A sample three-record buffer whose advance accessor fails right at the
first record, leaving two records unreached. -/
def cellsFail : List FlushCell :=
  [{ record := rec42, advance_ok := false }, { record := rec99, advance_ok := true },
   { record := badRec, advance_ok := true }]

/-- Two sample umpire allocators. -/
def allocsW : List Alloc :=
  [{ name := "HOST", actualSize := 4096, currentSize := 1024, hwm := 2048, count := 3 },
   { name := "DEVICE", actualSize := 8192, currentSize := 2048, hwm := 4096, count := 5 }]

/-- A sample captured context for the per-allocator records. -/
def ctxW : List (String × Value) := [("region", Value.str "main")]

/-! ## Lemmas about the correlation map -/

theorem mapFind_mapInsert_self {α : Type} (m : List (Nat × α)) (id : Nat) (n : α) :
    mapFind (mapInsert m id n) id = some n := by
  induction m with
  | nil => simp [mapInsert, mapFind]
  | cons p rest ih =>
    obtain ⟨k, v⟩ := p
    by_cases h : id = k
    · simp [mapInsert, h, mapFind]
    · simp [mapInsert, h, mapFind, ih]

theorem mapFind_eq_none_of_not_mem {α : Type} {m : List (Nat × α)} {id : Nat}
    (h : id ∉ m.map Prod.fst) : mapFind m id = none := by
  induction m with
  | nil => rfl
  | cons p rest ih =>
    obtain ⟨k, v⟩ := p
    simp only [List.map_cons, List.mem_cons, not_or] at h
    simp [mapFind, h.1, ih h.2]

theorem mem_keys_mapInsert {α : Type} {m : List (Nat × α)} {id x : Nat} {n : α}
    (h : x ∈ (mapInsert m id n).map Prod.fst) : x = id ∨ x ∈ m.map Prod.fst := by
  induction m with
  | nil => simpa [mapInsert] using h
  | cons p rest ih =>
    obtain ⟨k, v⟩ := p
    by_cases hk : id = k
    · simp only [mapInsert, if_pos hk, List.map_cons, List.mem_cons] at h
      rcases h with h | h
      · exact Or.inl h
      · exact Or.inr (by simp [h])
    · simp only [mapInsert, if_neg hk, List.map_cons, List.mem_cons] at h
      rcases h with h | h
      · exact Or.inr (by simp [h])
      · rcases ih h with h1 | h1
        · exact Or.inl h1
        · exact Or.inr (by simp [h1])

theorem keysNodup_mapInsert {α : Type} {m : List (Nat × α)} (id : Nat) (n : α)
    (h : KeysNodup m) : KeysNodup (mapInsert m id n) := by
  induction m with
  | nil => simp [KeysNodup, mapInsert]
  | cons p rest ih =>
    obtain ⟨k, v⟩ := p
    rw [KeysNodup, List.map_cons, List.nodup_cons] at h
    by_cases hk : id = k
    · rw [KeysNodup]
      simp only [mapInsert, if_pos hk, List.map_cons, List.nodup_cons]
      exact ⟨hk ▸ h.1, h.2⟩
    · rw [KeysNodup]
      simp only [mapInsert, if_neg hk, List.map_cons, List.nodup_cons]
      refine ⟨fun hmem => ?_, ih h.2⟩
      rcases mem_keys_mapInsert hmem with h1 | h1
      · exact hk h1.symm
      · exact h.1 h1

theorem mapFind_mapErase_self {α : Type} {m : List (Nat × α)} {id : Nat}
    (h : KeysNodup m) : mapFind (mapErase m id) id = none := by
  induction m with
  | nil => rfl
  | cons p rest ih =>
    obtain ⟨k, v⟩ := p
    rw [KeysNodup, List.map_cons, List.nodup_cons] at h
    by_cases hk : id = k
    · rw [mapErase]
      rw [if_pos hk]
      exact mapFind_eq_none_of_not_mem (hk ▸ h.1)
    · rw [mapErase]
      rw [if_neg hk]
      simp [mapFind, hk, ih h.2]

theorem countKey_cons {α : Type} (k : Nat) (v : α) (rest : List (Nat × α)) (id : Nat) :
    countKey ((k, v) :: rest) id =
      (if k == id then 1 else 0) + countKey rest id := by
  by_cases hk : (k == id) = true
  · simp [countKey, List.filter_cons, hk, Nat.add_comm]
  · simp [countKey, List.filter_cons, hk]

theorem countKey_eq_zero_of_not_mem {α : Type} {m : List (Nat × α)} {id : Nat}
    (h : id ∉ m.map Prod.fst) : countKey m id = 0 := by
  induction m with
  | nil => rfl
  | cons p rest ih =>
    obtain ⟨k, v⟩ := p
    simp only [List.map_cons, List.mem_cons, not_or] at h
    have hk : (k == id) = false := by
      simp only [beq_eq_false_iff_ne, ne_eq]
      exact fun he => h.1 he.symm
    rw [countKey_cons, hk, ih h.2]
    simp

theorem countKey_mapInsert_self {α : Type} {m : List (Nat × α)} (id : Nat) (n : α)
    (h : KeysNodup m) : countKey (mapInsert m id n) id = 1 := by
  induction m with
  | nil => simp [countKey, mapInsert, List.filter]
  | cons p rest ih =>
    obtain ⟨k, v⟩ := p
    rw [KeysNodup, List.map_cons, List.nodup_cons] at h
    by_cases hk : id = k
    · rw [mapInsert, if_pos hk]
      have hrest : countKey rest id = 0 := countKey_eq_zero_of_not_mem (hk ▸ h.1)
      rw [countKey_cons, hrest]
      simp
    · rw [mapInsert, if_neg hk]
      have hkne : (k == id) = false := by
        simp only [beq_eq_false_iff_ne, ne_eq]
        exact fun he => hk he.symm
      rw [countKey_cons, hkne, ih h.2]
      simp

/-! ## Claims about the correlation store -/

/-- Claim C1: for every correlation id, a take (`pop_correlation`) performed
after a store (`push_correlation`) of node `n` for that id, with no
intervening take on that id, returns exactly `n` and removes the entry, and a
second immediate take on that id returns null.  `KeysNodup` is the `std::map`
key-uniqueness representation invariant. -/
theorem claim_C1_store_take (m : List (Nat × CNode)) (id : Nat) (n : CNode)
    (h : KeysNodup m) :
    (pop_correlation (push_correlation m id n) id).1 = some n ∧
    mapFind (pop_correlation (push_correlation m id n) id).2 id = none ∧
    pop_correlation (pop_correlation (push_correlation m id n) id).2 id =
      (none, (pop_correlation (push_correlation m id n) id).2) := by
  have hins : KeysNodup (mapInsert m id n) := keysNodup_mapInsert id n h
  have hfind := mapFind_mapInsert_self m id n
  have hpop1 : pop_correlation (push_correlation m id n) id =
      (some n, mapErase (mapInsert m id n) id) := by
    simp [pop_correlation, push_correlation, hfind]
  have hnone : mapFind (mapErase (mapInsert m id n) id) id = none :=
    mapFind_mapErase_self hins
  refine ⟨by rw [hpop1], ?_, ?_⟩
  · rw [hpop1]
    exact hnone
  · rw [hpop1]
    simp [pop_correlation, hnone]

theorem claim_C1_store_take_witness :
    KeysNodup mapW ∧
    ((pop_correlation (push_correlation mapW 42 nodeA) 42).1 = some nodeA ∧
     mapFind (pop_correlation (push_correlation mapW 42 nodeA) 42).2 42 = none ∧
     pop_correlation (pop_correlation (push_correlation mapW 42 nodeA) 42).2 42 =
       (none, (pop_correlation (push_correlation mapW 42 nodeA) 42).2)) :=
  ⟨by decide, claim_C1_store_take mapW 42 nodeA (by decide)⟩

/-- Claim C2: for every correlation id, storing `n1` and then `n2` for the
same id with no intervening take leaves exactly one entry for that id (the
duplicate insertion overwrites the stale prior entry rather than failing),
and a subsequent take returns the most recently stored node `n2`. -/
theorem claim_C2_store_overwrites (m : List (Nat × CNode)) (id : Nat) (n1 n2 : CNode)
    (h : KeysNodup m) :
    countKey (push_correlation (push_correlation m id n1) id n2) id = 1 ∧
    (pop_correlation (push_correlation (push_correlation m id n1) id n2) id).1 = some n2 := by
  constructor
  · exact countKey_mapInsert_self id n2 (keysNodup_mapInsert id n1 h)
  · have hfind := mapFind_mapInsert_self (mapInsert m id n1) id n2
    simp [pop_correlation, push_correlation, hfind]

theorem claim_C2_store_overwrites_witness :
    KeysNodup mapW ∧
    (countKey (push_correlation (push_correlation mapW 42 nodeB) 42 nodeA) 42 = 1 ∧
     (pop_correlation (push_correlation (push_correlation mapW 42 nodeB) 42 nodeA) 42).1 =
       some nodeA) :=
  ⟨by decide, claim_C2_store_overwrites mapW 42 nodeB nodeA (by decide)⟩

/-! ## Lemmas about `flush_record` and the flush loop -/

theorem flush_record_unrecognized (s : ServiceState) (r : RocRecord)
    (h : isRecognizedDomain r.domain = false) :
    flush_record s r = { state := s, snaps := [], ret := 0 } := by
  simp [flush_record, h]

theorem flush_record_recognized_snaps_length (s : ServiceState) (r : RocRecord)
    (h : isRecognizedDomain r.domain = true) :
    (flush_record s r).snaps.length = 1 := by
  cases hf : mapFind s.correlation_map r.correlation_id with
  | none => simp [flush_record, h, pop_correlation, hf]
  | some n => simp [flush_record, h, pop_correlation, hf]

theorem flush_record_miss (s : ServiceState) (r : RocRecord)
    (hd : isRecognizedDomain r.domain = true)
    (hfind : mapFind s.correlation_map r.correlation_id = none) :
    flush_record s r =
      { state := { s with num_correlations_missed := s.num_correlations_missed + 1 }
        snaps := [make_record (if r.op = HIP_OP_ID_COPY then 7 else 6)
                    activityAttrs (activityData r) none]
        ret := 1 } := by
  simp [flush_record, hd, pop_correlation, hfind]

/-- Claim C4: a completion record of a recognized domain whose correlation id
has no entry at take-time still produces exactly one dispatched snapshot
record, that record carries no inherited context branch, and the missed
counter is incremented by one for that record. -/
theorem claim_C4_miss_still_builds (s : ServiceState) (r : RocRecord)
    (hd : isRecognizedDomain r.domain = true)
    (hfind : mapFind s.correlation_map r.correlation_id = none) :
    (flush_record s r).snaps =
      [make_record (if r.op = HIP_OP_ID_COPY then 7 else 6) activityAttrs (activityData r) none] ∧
    (flush_record s r).snaps.length = 1 ∧
    (flush_record s r).state.num_correlations_missed = s.num_correlations_missed + 1 := by
  rw [flush_record_miss s r hd hfind]
  simp [make_record]

theorem claim_C4_miss_still_builds_witness :
    isRecognizedDomain rec99.domain = true ∧
    mapFind (initState true false).correlation_map rec99.correlation_id = none ∧
    ((flush_record (initState true false) rec99).snaps =
       [make_record (if rec99.op = HIP_OP_ID_COPY then 7 else 6)
          activityAttrs (activityData rec99) none] ∧
     (flush_record (initState true false) rec99).snaps.length = 1 ∧
     (flush_record (initState true false) rec99).state.num_correlations_missed =
       (initState true false).num_correlations_missed + 1) :=
  ⟨by decide, by decide, claim_C4_miss_still_builds (initState true false) rec99 (by decide) (by decide)⟩

/-- Claim C5: a take for an id that was never stored (or has already been
taken) returns null, leaves the map unchanged, and — in the flush path that
performs the take — increments the missed counter by exactly one for that
call, leaving the found counter unchanged. -/
theorem claim_C5_take_never_stored (s : ServiceState) (r : RocRecord)
    (hd : isRecognizedDomain r.domain = true)
    (hfind : mapFind s.correlation_map r.correlation_id = none) :
    pop_correlation s.correlation_map r.correlation_id = (none, s.correlation_map) ∧
    (flush_record s r).state.num_correlations_missed = s.num_correlations_missed + 1 ∧
    (flush_record s r).state.num_correlations_found = s.num_correlations_found := by
  refine ⟨by simp [pop_correlation, hfind], ?_, ?_⟩
  · rw [flush_record_miss s r hd hfind]
  · rw [flush_record_miss s r hd hfind]

theorem claim_C5_take_never_stored_witness :
    isRecognizedDomain rec99.domain = true ∧
    mapFind (initState true false).correlation_map rec99.correlation_id = none ∧
    (pop_correlation (initState true false).correlation_map rec99.correlation_id =
       (none, (initState true false).correlation_map) ∧
     (flush_record (initState true false) rec99).state.num_correlations_missed =
       (initState true false).num_correlations_missed + 1 ∧
     (flush_record (initState true false) rec99).state.num_correlations_found =
       (initState true false).num_correlations_found) :=
  ⟨by decide, by decide, claim_C5_take_never_stored (initState true false) rec99 (by decide) (by decide)⟩

theorem flush_loop_snaps_of_all_ok (cells : List FlushCell) :
    ∀ s : ServiceState, (∀ c ∈ cells, c.advance_ok = true) →
    (flush_loop s cells).snaps = flushEmissions s (cells.map FlushCell.record) := by
  induction cells with
  | nil => intro s _
           rfl
  | cons c rest ih =>
    intro s hall
    have hc : c.advance_ok = true := hall c (by simp)
    have hrest : ∀ x ∈ rest, x.advance_ok = true := fun x hx => hall x (by simp [hx])
    simp only [flush_loop, hc, if_true, List.map_cons, flushEmissions]
    rw [ih _ hrest]

theorem flush_loop_snaps_length_of_all_ok (cells : List FlushCell) :
    ∀ s : ServiceState, (∀ c ∈ cells, c.advance_ok = true) →
    (flush_loop s cells).snaps.length = countRecognized cells := by
  induction cells with
  | nil => intro s _
           rfl
  | cons c rest ih =>
    intro s hall
    have hc : c.advance_ok = true := hall c (by simp)
    have hrest : ∀ x ∈ rest, x.advance_ok = true := fun x hx => hall x (by simp [hx])
    simp only [flush_loop, hc, if_true, List.length_append]
    rw [ih _ hrest]
    by_cases hd : isRecognizedDomain c.record.domain
    · rw [flush_record_recognized_snaps_length _ _ hd]
      simp [countRecognized, List.filter_cons, hd]
      omega
    · rw [flush_record_unrecognized _ _ (by simpa using hd)]
      simp only [List.length_nil]
      simp [countRecognized, List.filter_cons, hd]

theorem flush_loop_early_termination (pre : List FlushCell) :
    ∀ (s : ServiceState) (c : FlushCell) (rest : List FlushCell),
    (∀ x ∈ pre, x.advance_ok = true) → c.advance_ok = false →
    flush_loop s (pre ++ c :: rest) = flush_loop s (pre ++ [c]) := by
  induction pre with
  | nil =>
    intro s c rest _ hc
    simp [flush_loop, hc]
  | cons x xs ih =>
    intro s c rest hall hc
    have hx : x.advance_ok = true := hall x (by simp)
    have hxs : ∀ y ∈ xs, y.advance_ok = true := fun y hy => hall y (by simp [hy])
    simp only [List.cons_append, flush_loop, hx, if_true, List.append_eq]
    rw [ih _ c rest hxs hc]

/-- Claim C6 (amended): with a successful advance accessor the buffer is
iterated sequentially in the external source's record-linking order — the
dispatched snapshots are exactly the left-to-right emission sequence of the
records — and each *recognized* record (HIP/HCC async-op domain) gives rise
to exactly one dispatched snapshot, while an unrecognized record gives rise
to none. -/
theorem claim_C6_sequential_snapshots :
    (∀ (s : ServiceState) (ctx : Option CNode) (cells : List FlushCell),
       (∀ c ∈ cells, c.advance_ok = true) →
       (flush_activity_records s ctx cells).snaps = flushEmissions s (cells.map FlushCell.record) ∧
       (flush_activity_records s ctx cells).snaps.length = countRecognized cells) ∧
    (∀ (s : ServiceState) (r : RocRecord), isRecognizedDomain r.domain = true →
       (flush_record s r).snaps.length = 1) ∧
    (∀ (s : ServiceState) (r : RocRecord), isRecognizedDomain r.domain = false →
       (flush_record s r).snaps = []) := by
  refine ⟨fun s ctx cells hall => ?_, fun s r h => flush_record_recognized_snaps_length s r h,
    fun s r h => by rw [flush_record_unrecognized s r h]⟩
  have h1 := flush_loop_snaps_of_all_ok cells s hall
  have h2 := flush_loop_snaps_length_of_all_ok cells s hall
  constructor
  · show (flush_loop s cells).snaps = _
    exact h1
  · show (flush_loop s cells).snaps.length = _
    exact h2

theorem claim_C6_sequential_snapshots_witness :
    ((flush_activity_records (initState true false) none cellsW).snaps =
       flushEmissions (initState true false) (cellsW.map FlushCell.record) ∧
     (flush_activity_records (initState true false) none cellsW).snaps.length =
       countRecognized cellsW) ∧
    (flush_record (initState true false) rec42).snaps.length = 1 ∧
    (flush_record (initState true false) badRec).snaps = [] :=
  ⟨claim_C6_sequential_snapshots.1 (initState true false) none cellsW (by decide),
   claim_C6_sequential_snapshots.2.1 (initState true false) rec42 (by decide),
   claim_C6_sequential_snapshots.2.2 (initState true false) badRec (by decide)⟩

/-- Claim C6 counterexample: a non-empty buffer holding one record of an
unrecognized domain is delivered with a working advance accessor, yet zero
snapshots are dispatched — refuting that *every* record of the buffer gives
rise to exactly one dispatched snapshot. -/
theorem claim_C6_counterexample :
    (flush_activity_records (initState true false) none
        [{ record := badRec, advance_ok := true }]).snaps.length = 0 ∧
    ¬ ((flush_activity_records (initState true false) none
        [{ record := badRec, advance_ok := true }]).snaps.length =
       ([{ record := badRec, advance_ok := true }] : List FlushCell).length) := by
  decide

/-- Claim C7 (amended): an unrecognized record is skipped — it produces no
snapshot and no state change, is counted as seen but not flushed, and
iteration continues with the next record; when the advance accessor fails at
a record, the flush of the buffer terminates right after that record, so the
result equals that of the truncated buffer: snapshots already emitted stand,
while the records beyond the failure point are never iterated — they are not
counted as seen and hence not included in the reported skipped count. -/
theorem claim_C7_skip_and_early_stop :
    (∀ (s : ServiceState) (r : RocRecord), isRecognizedDomain r.domain = false →
       flush_record s r = { state := s, snaps := [], ret := 0 }) ∧
    (∀ (s : ServiceState) (c : FlushCell) (rest : List FlushCell),
       c.advance_ok = true → isRecognizedDomain c.record.domain = false →
       flush_loop s (c :: rest) =
         ({ flush_loop s rest with
             num_records := 1 + (flush_loop s rest).num_records } : FlushLoopResult)) ∧
    (∀ (s : ServiceState) (ctx : Option CNode) (pre : List FlushCell) (c : FlushCell)
       (rest : List FlushCell),
       (∀ x ∈ pre, x.advance_ok = true) → c.advance_ok = false →
       flush_activity_records s ctx (pre ++ c :: rest) =
         flush_activity_records s ctx (pre ++ [c])) := by
  refine ⟨flush_record_unrecognized, fun s c rest hadv hd => ?_, fun s ctx pre c rest hall hc => ?_⟩
  · simp only [flush_loop, hadv, if_true, flush_record_unrecognized s c.record hd]
    simp
  · rw [flush_activity_records, flush_activity_records,
        flush_loop_early_termination pre s c rest hall hc]

theorem claim_C7_skip_and_early_stop_witness :
    flush_record (initState true false) badRec =
      { state := initState true false, snaps := [], ret := 0 } ∧
    flush_loop (initState true false) ({ record := badRec, advance_ok := true } :: cellsW) =
      ({ flush_loop (initState true false) cellsW with
          num_records := 1 + (flush_loop (initState true false) cellsW).num_records } :
        FlushLoopResult) ∧
    flush_activity_records (initState true false) none
        ([{ record := rec42, advance_ok := true }] ++
         { record := rec99, advance_ok := false } :: [{ record := badRec, advance_ok := true }]) =
      flush_activity_records (initState true false) none
        ([{ record := rec42, advance_ok := true }] ++ [{ record := rec99, advance_ok := false }]) :=
  ⟨claim_C7_skip_and_early_stop.1 (initState true false) badRec (by decide),
   claim_C7_skip_and_early_stop.2.1 (initState true false)
     { record := badRec, advance_ok := true } cellsW (by decide) (by decide),
   claim_C7_skip_and_early_stop.2.2 (initState true false) none
     [{ record := rec42, advance_ok := true }] { record := rec99, advance_ok := false }
     [{ record := badRec, advance_ok := true }] (by decide) (by decide)⟩

/-- Claim C7 counterexample: the advance accessor fails at the very first
record of a three-record buffer (a recognized record, which is flushed); the
two remaining records are never iterated: the flush reports 1 record seen and
1 flushed, so the reported skipped count `num_records - num_flushed` is 0,
not 2 — the remainder is *not* reported as skipped, refuting that part of the
claim. -/
theorem claim_C7_counterexample :
    (flush_activity_records (initState true false) none cellsFail).state.num_records = 1 ∧
    (flush_activity_records (initState true false) none cellsFail).state.num_flushed = 1 ∧
    (flush_activity_records (initState true false) none cellsFail).state.num_records -
      (flush_activity_records (initState true false) none cellsFail).state.num_flushed ≠ 2 := by
  decide

/-- Claim C8: a buffer callback delivering zero records fires zero snapshot
events and performs exactly one counter change — the flush counter is
incremented by one — leaving the records-seen, records-flushed and all three
correlation counters, the correlation map, and the thread context unchanged. -/
theorem claim_C8_empty_buffer (s : ServiceState) (ctx : Option CNode) :
    flush_activity_records s ctx [] =
      { state := { s with num_flushes := s.num_flushes + 1 }, ctx := ctx, snaps := [] } := by
  cases ctx <;>
    simp [flush_activity_records, flush_loop, caliper_begin, caliper_end, make_tree_entry,
      CNode.nodeAttr, CNode.nodeParent, roctracer_flush_attr]

/-- Claim C3: the concrete matmul scenario.  Starting from an empty store
with zero counters: the API callback ENTER with operation value "matmul" and
externally-assigned correlation id 42 stores the current context node and
sets the stored counter to 1; the EXIT pops the region; a later buffer
delivery of one record with correlation id 42 and a begin/end difference of
500 ns produces exactly one snapshot record whose duration field equals 500
(computed as `end_ns - begin_ns`) and whose inherited branch has leaf value
"matmul", with found counter 1 and missed counter 0. -/
theorem claim_C3_matmul_scenario :
    (hip_api_callback (initState true false) none 7
        { phase := Phase.enter, correlation_id := 42, kernelNameArg := "" }
        "matmul").1.num_correlations_stored = 1 ∧
    mapFind (hip_api_callback (initState true false) none 7
        { phase := Phase.enter, correlation_id := 42, kernelNameArg := "" }
        "matmul").1.correlation_map 42 = some nodeA ∧
    (let r1 := hip_api_callback (initState true false) none 7
        { phase := Phase.enter, correlation_id := 42, kernelNameArg := "" } "matmul"
     let r2 := hip_api_callback r1.1 r1.2 7
        { phase := Phase.exit, correlation_id := 42, kernelNameArg := "" } "matmul"
     let r3 := flush_activity_records r2.1 r2.2 [{ record := rec42, advance_ok := true }]
     r2.2 = none ∧
     r3.snaps =
       [{ fields :=
            [("rocm.activity", Value.str (roctracer_op_string ACTIVITY_DOMAIN_HIP_OPS 0 0)),
             ("rocm.starttime", Value.uint 1000),
             ("rocm.endtime", Value.uint 1500),
             ("rocm.activity.duration", Value.uint 500),
             ("rocm.activity.device", Value.uint 0),
             ("rocm.activity.queue", Value.uint 0)]
          inherited := some nodeA }] ∧
     (r3.snaps.head?.bind SnapshotRec.inherited).map CNode.nodeValue =
       some (Value.str "matmul") ∧
     r3.state.num_correlations_stored = 1 ∧
     r3.state.num_correlations_found = 1 ∧
     r3.state.num_correlations_missed = 0) := by
  decide

/-- Claim C9 evaluated at the failing input: registering the roctracer
service a second time while an instance is active emits the "already active,
disabling!" warning but then replaces the active instance anyway — the
second registration is not disabled and the first instance's registration is
lost, contradicting the guard's own message. -/
theorem claim_C9_second_registration_replaces :
    register_roctracer none 1 = (some 1, false) ∧
    register_roctracer (register_roctracer none 1).1 2 = (some 2, true) ∧
    (register_roctracer (register_roctracer none 1).1 2).1 ≠ (register_roctracer none 1).1 := by
  decide

/-! ## The umpire snapshot claim -/

theorem umpire_loop_closed (p : Bool) (ctx : List (String × Value)) :
    ∀ (allocs : List Alloc) (ts tc : Nat), ts < U64Mod → tc < U64Mod →
    umpire_loop p ctx allocs ts tc =
      ((ts + (allocs.map Alloc.currentSize).sum) % U64Mod,
       (tc + (allocs.map Alloc.count).sum) % U64Mod,
       if p then allocs.map (umpire_process_allocator ctx) else []) := by
  intro allocs
  induction allocs with
  | nil =>
    intro ts tc hts htc
    simp [umpire_loop, Nat.mod_eq_of_lt hts, Nat.mod_eq_of_lt htc]
  | cons a rest ih =>
    intro ts tc hts htc
    have hU : 0 < U64Mod := by norm_num [U64Mod]
    have h1 : (ts + a.currentSize) % U64Mod < U64Mod := Nat.mod_lt _ hU
    have h2 : (tc + a.count) % U64Mod < U64Mod := Nat.mod_lt _ hU
    simp only [umpire_loop]
    rw [ih _ _ h1 h2]
    cases p <;> simp [Nat.mod_add_mod, Nat.add_assoc]

/-- Claim C10: every invocation of the umpire snapshot callback appends
exactly two fields to the subscriber's snapshot builder — `umpire.total.size`
equal to the sum of `getCurrentSize` over all allocators and
`umpire.total.count` equal to the sum of `getAllocationCount` over all
allocators — regardless of the per-allocator-statistics setting, and the
standalone per-allocator records (name, actual size, current size, high
watermark, count) are dispatched through `process_snapshot` only when that
setting is on, exactly one record per allocator, in allocator order.  The
two bound hypotheses say the `uint64_t` totals do not wrap. -/
theorem claim_C10_umpire_totals (perAlloc : Bool) (context : List (String × Value))
    (allocs : List Alloc)
    (h1 : (allocs.map Alloc.currentSize).sum < U64Mod)
    (h2 : (allocs.map Alloc.count).sum < U64Mod) :
    (umpire_snapshot perAlloc context allocs).1 =
      [("umpire.total.size", Value.uint ((allocs.map Alloc.currentSize).sum)),
       ("umpire.total.count", Value.uint ((allocs.map Alloc.count).sum))] ∧
    (umpire_snapshot perAlloc context allocs).2 =
      (if perAlloc then allocs.map (umpire_process_allocator context) else []) := by
  have hU : 0 < U64Mod := by norm_num [U64Mod]
  have hc := umpire_loop_closed perAlloc context allocs 0 0 hU hU
  constructor <;>
    simp [umpire_snapshot, hc, Nat.mod_eq_of_lt h1, Nat.mod_eq_of_lt h2]

theorem claim_C10_umpire_totals_witness :
    ((allocsW.map Alloc.currentSize).sum < U64Mod ∧
     (allocsW.map Alloc.count).sum < U64Mod) ∧
    ((umpire_snapshot true ctxW allocsW).1 =
       [("umpire.total.size", Value.uint ((allocsW.map Alloc.currentSize).sum)),
        ("umpire.total.count", Value.uint ((allocsW.map Alloc.count).sum))] ∧
     (umpire_snapshot true ctxW allocsW).2 =
       (if true then allocsW.map (umpire_process_allocator ctxW) else [])) :=
  ⟨⟨by decide, by decide⟩,
   claim_C10_umpire_totals true ctxW allocsW (by decide) (by decide)⟩

end Caliper
